import Mathlib

/-!
Verification of the three-stage synchronization pipeline
(Extract / Centralize / Dispatch) of the `integration` repository.

The Python sources under `src/` are shallowly embedded as executable Lean
definitions:

* a pandas `DataFrame` becomes `DataFrame` (a column-name list plus a list
  of rows, each row a list of `Value`s);
* database driver calls are fallible and are modelled by `Except String`
  parameters of the embedded functions (one parameter per query site, so a
  theorem can quantify over every possible driver outcome);
* `update_monitoring` publications and `add_alert` calls become values
  accumulated in the result records of the embedded functions;
* Python dynamic typing matters in `process_centralization`, where the
  source dictionary produced by `to_dict(orient='index')` is keyed by
  positional integers while the CRM index is keyed by `(NUM_0, DOSSIER_0)`
  tuples; the key type `PyKey` mirrors this, with fallible subscripting
  exactly where the Python value could raise.
-/

namespace Integration

/-- A cell value of a tabular value (a pandas cell). -/
inductive Value where
  | str (s : String)
  | int (n : Int)
  | date (d : Nat)
  | null
deriving DecidableEq, Repr

/-- In-memory tabular value: `cols` are the column labels, `rows` the data
rows (well-formed frames have `r.length = cols.length` for every row). -/
structure DataFrame where
  cols : List String
  rows : List (List Value)
deriving DecidableEq, Repr

/-- `pd.DataFrame()` — the empty frame. -/
def DataFrame.emptyDF : DataFrame := ⟨[], []⟩

/-- `df.empty` — true when the frame has no rows or no columns. -/
def DataFrame.isEmpty (df : DataFrame) : Bool :=
  df.rows.isEmpty || df.cols.isEmpty

/-- `df.columns = df.columns.str.upper()` — upper-cases every column label;
row content is untouched. -/
def upperCols (df : DataFrame) : DataFrame :=
  ⟨df.cols.map String.toUpper, df.rows⟩

/-- `df.rename(columns={o: n})` — relabels every column named `o` to `n`;
row content is untouched. -/
def renameCol (df : DataFrame) (o n : String) : DataFrame :=
  ⟨df.cols.map (fun c => if c == o then n else c), df.rows⟩

/-- The values of a row kept after dropping the columns labelled `c`
(positions are paired with the labels `cols`). -/
def keptVals (cols : List String) (c : String) (r : List Value) : List Value :=
  ((cols.zip r).filter (fun p => !(p.1 == c))).map Prod.snd

/-- `df.drop(columns=[c])` — removes every column labelled `c` together
with the corresponding cell of every row. -/
def dropCol (df : DataFrame) (c : String) : DataFrame :=
  ⟨df.cols.filter (fun x => !(x == c)), df.rows.map (keptVals df.cols c)⟩

/-- `df[c] = v` — broadcast column assignment: overwrites every column
labelled `c` when one exists, otherwise appends a new column `c`, in both
cases filling every row with the scalar `v`. -/
def setCol (df : DataFrame) (c : String) (v : Value) : DataFrame :=
  if c ∈ df.cols then
    ⟨df.cols, df.rows.map (fun r => (df.cols.zip r).map (fun p => if p.1 == c then v else p.2))⟩
  else
    ⟨df.cols ++ [c], df.rows.map (fun r => r ++ [v])⟩

/-- The cell of row `r` under the (first) column labelled `c`. -/
def rowVal (cols : List String) (c : String) (r : List Value) : Option Value :=
  ((cols.zip r).find? (fun p => p.1 == c)).map Prod.snd

/-- One `update_monitoring(stage, step_name, status, metrics, message)`
publication. -/
structure StepRecord where
  stage : String
  step : String
  status : String
  message : String
deriving DecidableEq, Repr

/-- `if "BRP_0" in df.columns: df.rename(columns={"BRP_0": "BPR_0"})` —
the typo fix of `extract_schema_data`. -/
def normBrp (df : DataFrame) : DataFrame :=
  if "BRP_0" ∈ df.cols then renameCol df "BRP_0" "BPR_0" else df

/-- `if "DOSSIER_0" in df.columns: df.drop(columns=["DOSSIER_0"])` —
removal of a pre-existing origin tag in `extract_schema_data`. -/
def dropDossier (df : DataFrame) : DataFrame :=
  if "DOSSIER_0" ∈ df.cols then dropCol df "DOSSIER_0" else df

/-- `src/extraction.py: extract_schema_data(db_config, schema)`.

The driver call `execute_select_to_df` is modelled by the parameter
`driver`; `.ok df` is the selected frame, `.error e` a raised driver
exception with message `e`.  On success the frame is normalized (upper-case
labels, `BRP_0` renamed to `BPR_0`, any `DOSSIER_0` dropped, a fresh
`DOSSIER_0` column equal to `schema` appended) and a SUCCESS record is
published; on failure an empty frame is returned with a FAILURE record
carrying the message — the function itself never raises (it is total). -/
def extract_schema_data (schema : String) (driver : Except String DataFrame) :
    DataFrame × StepRecord :=
  match driver with
  | .error e => (DataFrame.emptyDF, ⟨"extraction", schema, "FAILURE", e⟩)
  | .ok df0 =>
      (setCol (dropDossier (normBrp (upperCols df0))) "DOSSIER_0"
        (Value.str schema),
       ⟨"extraction", schema, "SUCCESS", "Extraction completee."⟩)

/-- A row of `CRM.XIMPAYE_CONSO` as selected by `get_active_crm_invoices`
(`SELECT NUM_0, DOSSIER_0, MNTREG_0, MNTGLB_0 ...`). -/
structure CrmRow where
  num : Value
  dossier : Value
  mntreg : Int
  mntglb : Int
deriving DecidableEq, Repr

/-- A Python dictionary/set key as used in `process_centralization`:
either a positional integer (the label of a row of the un-indexed source
frame, as produced by `to_dict(orient='index')` on a frame whose index is
the default `RangeIndex`) or a `(NUM_0, DOSSIER_0)` tuple (an element of
the CRM composite index).  An integer and a tuple never compare equal. -/
inductive PyKey where
  | int (i : Nat)
  | tup (num dossier : Value)
deriving DecidableEq, Repr

/-- Python `k[0]` on a key: defined on tuples, a `TypeError` on integers. -/
def PyKey.sub0 : PyKey → Option Value
  | .int _ => none
  | .tup a _ => some a

/-- Python `k[1]` on a key: defined on tuples, a `TypeError` on integers. -/
def PyKey.sub1 : PyKey → Option Value
  | .int _ => none
  | .tup _ b => some b

/-- Lift a partial Python operation into the raising semantics of the
enclosing `try` block. -/
def pyOp (o : Option α) (err : String) : Except String α :=
  match o with
  | some a => .ok a
  | none => .error err

/-- A Python numeric comparison of a cell against a number: defined on
`int` cells, a `TypeError` otherwise. -/
def Value.asInt : Value → Option Int
  | .int n => some n
  | _ => none

/-- `crm_index.loc[k, _]` — looks `k` up in the composite
`(NUM_0, DOSSIER_0)` index built from the active CRM rows (first match;
the CRM key is unique by design).  `KeyError` when absent. -/
def crmLoc (active : List CrmRow) (k : PyKey) : Option CrmRow :=
  active.find? (fun r => PyKey.tup r.num r.dossier == k)

/-- Driver outcomes consumed by one `process_centralization` call, one
field per query site of `src/centralization.py`. -/
structure CentEnv where
  /-- outcome of `fetch_scalar(COUNT(*))` inside `is_initial_load`. -/
  crmCount : Except String Nat
  /-- the full `CRM.XIMPAYE_CONSO` table behind `get_active_crm_invoices`. -/
  crmTable : List CrmRow
  /-- a raised error of the active-invoice SELECT, when one occurs. -/
  activeFetchErr : Option String
  /-- outcome of `execute_batch` for the staged INSERTs. -/
  insertExec : Except String Unit
  /-- outcome of `execute_batch` for the staged UPDATEs. -/
  updateExec : Except String Unit

/-- `src/centralization.py: get_active_crm_invoices` —
`SELECT ... WHERE MNTREG_0 < MNTGLB_0`: only active invoices are fetched. -/
def get_active_crm_invoices (table : List CrmRow) : List CrmRow :=
  table.filter (fun r => r.mntreg < r.mntglb)

/-- Observable outcome of one `process_centralization` call. -/
structure CentOutcome where
  /-- the caller's frame when the call returns (the Python function
  mutates `source_df` in place). -/
  sourceAfter : DataFrame
  /-- row tuples passed to the INSERT `execute_batch`. -/
  inserts : List (List Value)
  /-- `(MNTREG_0, SYNC_DATE, NUM_0, DOSSIER_0)` tuples passed to the
  UPDATE `execute_batch`. -/
  updates : List (Int × Nat × Value × Value)
  /-- the final `centralisation/CRM_GLOBAL` publication. -/
  record : StepRecord
deriving DecidableEq, Repr

/-- Body of the `try` block of `process_centralization` (after the
in-place `source_df["SYNC_DATE"] = now_date` stamp): mode selection, then
either the initial mass insert or the delta classification.  `df` is the
already-stamped frame.  Every Python expression that can raise is threaded
through `Except`. -/
def centTry (df : DataFrame) (env : CentEnv) (now : Nat) :
    Except String
      (List (List Value) × List (Int × Nat × Value × Value) × StepRecord) := do
  let cnt ← env.crmCount
  if cnt == 0 then
    -- initial load: insert every row of the stamped frame
    let dataToInsert := df.rows
    let _ ← env.insertExec
    pure ⟨dataToInsert, [],
      ⟨"centralisation", "CRM_GLOBAL", "SUCCESS", "Chargement Initial Complete."⟩⟩
  else
    let active ←
      match env.activeFetchErr with
      | some e => Except.error e
      | none => Except.ok (get_active_crm_invoices env.crmTable)
    -- `source_df.set_index(..., inplace=False, ...)` returns a new frame
    -- that the Python code discards, so `source_dict` below is keyed by
    -- the positional labels of the un-indexed frame.
    let sourceDict : List (PyKey × List Value) :=
      (List.range df.rows.length).zip df.rows |>.map (fun p => (PyKey.int p.1, p.2))
    let sourceKeys : List PyKey := sourceDict.map (fun p => p.1)
    let crmKeys : List PyKey :=
      ((active.map (fun r => PyKey.tup r.num r.dossier)).dedup)
    -- 1. new keys: in the source dict but not in the CRM index
    let newKeys := sourceKeys.filter (fun k => !(crmKeys.contains k))
    let insertData := newKeys.filterMap
      (fun k => (sourceDict.find? (fun p => p.1 == k)).map (fun p => p.2))
    -- 2. common keys: partial-payment updates
    let commonKeys := sourceKeys.filter (fun k => crmKeys.contains k)
    let partialUpd ← commonKeys.foldlM (fun acc k => do
        let crmRow ← pyOp (crmLoc active k) "KeyError"
        let srcRow ← pyOp ((sourceDict.find? (fun p => p.1 == k)).map (fun p => p.2)) "KeyError"
        let srcRegV ← pyOp (rowVal df.cols "MNTREG_0" srcRow) "KeyError"
        let srcReg ← pyOp srcRegV.asInt "TypeError"
        if crmRow.mntreg < srcReg then do
          let k0 ← pyOp k.sub0 "TypeError"
          let k1 ← pyOp k.sub1 "TypeError"
          pure (acc ++ [(srcReg, now, k0, k1)])
        else pure acc)
      ([] : List (Int × Nat × Value × Value))
    -- 3. disappeared keys: active in the CRM but absent from the source
    let disappeared := crmKeys.filter (fun k => !(sourceKeys.contains k))
    let settleUpd ← disappeared.foldlM (fun acc k => do
        let crmRow ← pyOp (crmLoc active k) "KeyError"
        let k0 ← pyOp k.sub0 "TypeError"
        let k1 ← pyOp k.sub1 "TypeError"
        pure (acc ++ [(crmRow.mntglb, now, k0, k1)]))
      ([] : List (Int × Nat × Value × Value))
    let updateData := partialUpd ++ settleUpd
    let _ ← if insertData.isEmpty then pure () else env.insertExec
    let _ ← if updateData.isEmpty then pure () else env.updateExec
    pure ⟨insertData, updateData,
      ⟨"centralisation", "CRM_GLOBAL", "SUCCESS", "Centralisation OK."⟩⟩

/-- `src/centralization.py: process_centralization(source_df)`.

Empty source: publish SUCCESS and return untouched.  Otherwise stamp
`SYNC_DATE = now` onto the caller's frame in place, run `centTry`, and —
decisively — catch any exception, publishing a FAILURE record and
returning normally: the function never propagates an exception to its
caller. -/
def process_centralization (source : DataFrame) (env : CentEnv) (now : Nat) :
    CentOutcome :=
  if source.isEmpty then
    ⟨source, [], [],
      ⟨"centralisation", "CRM_GLOBAL", "SUCCESS",
        "Source DataFrame is empty. Noting to centralize."⟩⟩
  else
    let stamped := setCol source "SYNC_DATE" (Value.date now)
    match centTry stamped env now with
    | .ok (ins, upd, r) => ⟨stamped, ins, upd, r⟩
    | .error e =>
        ⟨stamped, [], [],
          ⟨"centralisation", "CRM_GLOBAL", "FAILURE",
            "Erreur de centralisation: " ++ e⟩⟩

/-- A row of the consolidated CRM table as seen by `run_dispatching`:
only `SYNC_DATE` is inspected by the delta query, the rest travels as an
opaque payload. -/
structure CrmWideRow where
  syncDate : Nat
  payload : List Value
deriving DecidableEq, Repr

/-- Per-target driver outcomes consumed by the state-check phase of
`run_dispatching`: the `COUNT(*)` query and the `MAX(SYNC_DATE)` query
(`.ok none` is a SQL NULL maximum). -/
structure TargetEnv where
  schema : String
  countQ : Except String Nat
  maxDateQ : Except String (Option Nat)
deriving Repr

/-- A task submitted to the dispatch pool. -/
inductive DispatchCall where
  | initial (schema : String)
  | delta (schema : String) (df : List CrmWideRow)
deriving DecidableEq, Repr

/-- Observable outcome of one `run_dispatching` call. -/
structure DispatchOutcome where
  initials : List String
  deltas : List String
  maxDates : List Nat
  /-- FAILURE publications of the state-check phase. -/
  failures : List StepRecord
  /-- `add_alert` calls made by `run_dispatching` (there are none in the
  source). -/
  alerts : List (String × String)
  /-- how many times the CRM delta SELECT was executed. -/
  fetchCount : Nat
  /-- the fetched delta frame (`pd.DataFrame()` when never fetched). -/
  deltaDf : List CrmWideRow
  calls : List DispatchCall
deriving DecidableEq, Repr

/-- Python `min` over a (non-empty, in use) list. -/
def listMin : List Nat → Nat
  | [] => 0
  | h :: t => t.foldl min h

/-- Accumulator of the state-check loop of `run_dispatching`. -/
structure CheckAcc where
  initials : List String
  deltas : List String
  maxDates : List Nat
  failures : List StepRecord
deriving DecidableEq, Repr

/-- One iteration of the state-check loop: classify target `t` by its
`COUNT(*)`, then (non-empty case) by its `MAX(SYNC_DATE)`; any raised
query error is caught, publishing a FAILURE record and dropping the
target. -/
def checkStep (acc : CheckAcc) (t : TargetEnv) : CheckAcc :=
  match t.countQ with
  | .error e =>
      { acc with failures := acc.failures ++
          [⟨"dispatching", t.schema, "FAILURE", "Erreur acces schema: " ++ e⟩] }
  | .ok 0 => { acc with initials := acc.initials ++ [t.schema] }
  | .ok (_ + 1) =>
      match t.maxDateQ with
      | .error e =>
          { acc with failures := acc.failures ++
              [⟨"dispatching", t.schema, "FAILURE", "Erreur acces schema: " ++ e⟩] }
      | .ok none => acc
      | .ok (some d) =>
          { acc with maxDates := acc.maxDates ++ [d],
                     deltas := acc.deltas ++ [t.schema] }

/-- `src/dispatch.py: run_dispatching()` over the target environments and
the CRM table.  Phase 1 classifies the targets; phase 2 fetches the delta
(rows with `SYNC_DATE` strictly above the minimum of the collected
maxima) exactly once when the delta set is non-empty; phase 3 schedules
one `dispatch_initial` per initial target and one
`dispatch_delta(delta_df)` per delta target, every delta task receiving
the same precomputed frame. -/
def run_dispatching (targets : List TargetEnv) (crm : List CrmWideRow) :
    DispatchOutcome :=
  let acc := targets.foldl checkStep ⟨[], [], [], []⟩
  let fetch := !acc.deltas.isEmpty && !acc.maxDates.isEmpty
  let deltaDf :=
    if fetch then crm.filter (fun r => listMin acc.maxDates < r.syncDate)
    else []
  ⟨acc.initials, acc.deltas, acc.maxDates, acc.failures, [],
   (if fetch then 1 else 0), deltaDf,
   acc.initials.map DispatchCall.initial
     ++ acc.deltas.map (fun s => DispatchCall.delta s deltaDf)⟩

/-- A target whose state check raised: either the `COUNT(*)` query failed,
or the target is non-empty and the `MAX(SYNC_DATE)` query failed. -/
def checkFails (t : TargetEnv) : Bool :=
  match t.countQ with
  | .error _ => true
  | .ok 0 => false
  | .ok (_ + 1) =>
      match t.maxDateQ with
      | .error _ => true
      | .ok _ => false

/-- The delta-set watermark contributed by target `t`: its
`MAX(SYNC_DATE)` when the target is non-empty and both queries succeed
with a non-null maximum. -/
def targetMaxDate (t : TargetEnv) : Option Nat :=
  match t.countQ with
  | .ok (_ + 1) =>
      match t.maxDateQ with
      | .ok (some d) => some d
      | _ => none
  | _ => none

/-- Membership of target `t` in the delta set. -/
def isDeltaTarget (t : TargetEnv) : Bool :=
  (targetMaxDate t).isSome

/-- Python `df is not None`: `extract_schema_data` always returns a
DataFrame (never `None`), so this test is constantly true. -/
def dfIsNotNone (_ : DataFrame) : Bool := true

/-- Trace of one `run_extraction_with_retries` call: the `IN_PROGRESS` /
`FAILURE` publications with their `retries` metric, the number of
`RETRY_DELAY_SECONDS` sleeps, the `add_alert` calls, the number of
Extractor attempts made, and the returned `(df, success)` pair. -/
structure RetryTrace where
  pubs : List (String × Nat)
  sleeps : Nat
  alerts : List (String × String)
  attemptsMade : Nat
  result : DataFrame × Bool
deriving DecidableEq, Repr

/-- The epilogue reached when the `while` loop of
`run_extraction_with_retries` ends without returning: log, raise the
`EXTRACTION_FAIL` alert, return `(empty frame, False)`. -/
def retryEpilogue (pubs : List (String × Nat)) (sleeps attempts : Nat) : RetryTrace :=
  ⟨pubs, sleeps, [("EXTRACTION_FAIL", "Echec de l'extraction.")], attempts,
   (DataFrame.emptyDF, false)⟩

/-- The `while retries <= MAX_RETRIES` loop of
`run_extraction_with_retries`, with `att i` the outcome of the `i`-th
Extractor call (`.error` models a raised exception).  `fuel` counts the
remaining loop iterations (`fuel = maxR + 1 - retries` at every call, so
running out of fuel is exactly the loop condition turning false).  Each
iteration publishes `IN_PROGRESS` with the current retry count; a
non-raising attempt returns `(df, True)` (the guard
`not df.empty or df is not None` is constantly true); a raising attempt
publishes `FAILURE` with the incremented retry count and sleeps when
another attempt remains. -/
def retryGo (att : Nat → Except String DataFrame) (maxR : Nat) :
    Nat → Nat → List (String × Nat) → Nat → Nat → RetryTrace
  | _, 0, pubs, sleeps, attempts => retryEpilogue pubs sleeps attempts
  | retries, fuel + 1, pubs, sleeps, attempts =>
      let pubs1 := pubs ++ [("IN_PROGRESS", retries)]
      match att retries with
      | .ok df =>
          if !df.isEmpty || dfIsNotNone df then
            ⟨pubs1, sleeps, [], attempts + 1, (df, true)⟩
          else
            -- `break` out of the loop, into the same epilogue
            retryEpilogue pubs1 sleeps (attempts + 1)
      | .error _ =>
          let r := retries + 1
          let pubs2 := pubs1 ++ [("FAILURE", r)]
          retryGo att maxR r fuel pubs2
            (if r ≤ maxR then sleeps + 1 else sleeps) (attempts + 1)

/-- `src/sync_engine.py: run_extraction_with_retries(db_config, schema)`;
`maxR` is `MAX_RETRIES`. -/
def run_extraction_with_retries (att : Nat → Except String DataFrame)
    (maxR : Nat) : RetryTrace :=
  retryGo att maxR 0 (maxR + 1) [] 0 0

/-- Trace of one orchestrator-level stage retry loop (centralisation and
dispatching): attempts made, sleeps, `some a` on success
(`break`) or `none` when the budget is exhausted. -/
structure LoopTrace (α : Type) where
  attemptsMade : Nat
  sleeps : Nat
  result : Option α
deriving Repr

/-- The orchestrator `while retries <= MAX_RETRIES` loop around a stage
call; `call i` is the outcome of the `i`-th attempt, an `.error` being a
raised exception.  Fuel as in `retryGo`. -/
def stageRetry (call : Nat → Except String α) (maxR : Nat) :
    Nat → Nat → Nat → Nat → LoopTrace α
  | _, 0, attempts, sleeps => ⟨attempts, sleeps, none⟩
  | retries, fuel + 1, attempts, sleeps =>
      match call retries with
      | .ok a => ⟨attempts + 1, sleeps, some a⟩
      | .error _ =>
          let r := retries + 1
          stageRetry call maxR r fuel (attempts + 1)
            (if r ≤ maxR then sleeps + 1 else sleeps)

/-- `pd.concat(results, ignore_index=True)` for column-homogeneous frames
(every extraction yields the normalized `XIMPAYE` column list, which is
the operating regime of the engine): rows are appended under the columns
of the first frame. -/
def concatDf : List DataFrame → DataFrame
  | [] => DataFrame.emptyDF
  | d :: t => ⟨d.cols, t.foldl (fun acc d2 => acc ++ d2.rows) d.rows⟩

/-- Environment of one `orchestrate_sync` cycle: `MAX_RETRIES`, the
per-schema Extractor attempt outcomes, the Centralizer driver outcomes,
the cycle clock, and the per-attempt outcomes of `run_dispatching`. -/
structure SyncEnv where
  maxR : Nat
  exts : List (String × (Nat → Except String DataFrame))
  centEnv : CentEnv
  now : Nat
  dispatchRun : Nat → Except String Unit

/-- Observable outcome of one `orchestrate_sync` cycle. -/
structure SyncOutcome where
  /-- alerts raised during the cycle (after the initial `clear_alerts`). -/
  alerts : List (String × String)
  /-- the global status at cycle end. -/
  status : String
  /-- extractions counted as successful (`success and not df.empty`). -/
  successCount : Nat
  /-- the Centralizer outcome, `none` when the cycle ended beforehand. -/
  cent : Option CentOutcome
  /-- how many times `process_centralization` was attempted. -/
  centAttempts : Nat
  /-- whether the cycle reached the dispatching stage. -/
  reachedDispatch : Bool
deriving Repr

/-- `src/sync_engine.py: orchestrate_sync()`.

Phase 1 runs every extraction through its retry wrapper and keeps the
non-empty successes; zero successes abort the cycle with `CRITICAL_FAIL`
and status `ERROR`.  Phase 2 runs the Centralizer inside the
orchestrator retry loop — whose call never raises, because
`process_centralization` swallows its exceptions, hence the
`Except.ok` wrapping.  Phase 3 (after the advisory integrity check) runs
`run_dispatching` inside the same loop; exhaustion raises `DISPATCH_FAIL`
with status `ERROR`, otherwise the cycle ends `IDLE`. -/
def orchestrate_sync (env : SyncEnv) : SyncOutcome :=
  let traces := env.exts.map (fun p => run_extraction_with_retries p.2 env.maxR)
  let extAlerts := traces.foldl (fun acc t => acc ++ t.alerts) []
  let results := traces.filterMap
    (fun t => if t.result.2 && !t.result.1.isEmpty then some t.result.1 else none)
  let successCount := results.length
  if successCount == 0 then
    ⟨extAlerts ++ [("CRITICAL_FAIL", "Toutes les extractions ont echoue. Annulation du cycle.")],
     "ERROR", successCount, none, 0, false⟩
  else
    let warn :=
      if successCount < env.exts.length then
        [("WARNING", "extraction partielle")] else []
    let alerts1 := extAlerts ++ warn
    let globalDf := concatDf results
    let centLoop := stageRetry
      (fun _ => Except.ok (process_centralization globalDf env.centEnv env.now))
      env.maxR 0 (env.maxR + 1) 0 0
    match centLoop.result with
    | none =>
        ⟨alerts1 ++ [("CENTRALISATION_FAIL", "Echec de la centralisation CRM.")],
         "ERROR", successCount, none, centLoop.attemptsMade, false⟩
    | some centOut =>
        -- verify_integrity(global_df) runs here: advisory, never blocking
        let dispLoop := stageRetry env.dispatchRun env.maxR 0 (env.maxR + 1) 0 0
        match dispLoop.result with
        | none =>
            ⟨alerts1 ++ [("DISPATCH_FAIL", "Echec critique du dispatching.")],
             "ERROR", successCount, some centOut, centLoop.attemptsMade, true⟩
        | some _ =>
            ⟨alerts1, "IDLE", successCount, some centOut, centLoop.attemptsMade, true⟩

/-! ## Concrete scenarios -/

/-- Delta-mode union with one row `(A, CAS, MNTREG 70, MNTGLB 100)`. -/
def srcA : DataFrame :=
  ⟨["NUM_0", "DOSSIER_0", "MNTREG_0", "MNTGLB_0"],
   [[Value.str "A", Value.str "CAS", Value.int 70, Value.int 100]]⟩

/-- CRM holding the single active row `(A, CAS, MNTREG 30, MNTGLB 100)`;
every query succeeds. -/
def envA : CentEnv :=
  ⟨.ok 1, [⟨Value.str "A", Value.str "CAS", 30, 100⟩], none, .ok (), .ok ()⟩

/-- Delta-mode union with one row `(B, CMGP, MNTREG 20, MNTGLB 50)`,
identical to the active CRM row of `envB`. -/
def srcB : DataFrame :=
  ⟨["NUM_0", "DOSSIER_0", "MNTREG_0", "MNTGLB_0"],
   [[Value.str "B", Value.str "CMGP", Value.int 20, Value.int 50]]⟩

/-- CRM holding the single active row `(B, CMGP, MNTREG 20, MNTGLB 50)`. -/
def envB : CentEnv :=
  ⟨.ok 1, [⟨Value.str "B", Value.str "CMGP", 20, 50⟩], none, .ok (), .ok ()⟩

/-- Delta-mode union with one row `(C, PHILEA, MNTREG 40, MNTGLB 80)`. -/
def srcC : DataFrame :=
  ⟨["NUM_0", "DOSSIER_0", "MNTREG_0", "MNTGLB_0"],
   [[Value.str "C", Value.str "PHILEA", Value.int 40, Value.int 80]]⟩

/-- CRM holding the single active row `(C, PHILEA, MNTREG 10, MNTGLB 80)`. -/
def envC : CentEnv :=
  ⟨.ok 1, [⟨Value.str "C", Value.str "PHILEA", 10, 80⟩], none, .ok (), .ok ()⟩

/-- Non-empty union used for the mutation and orchestration scenarios. -/
def srcD : DataFrame :=
  ⟨["NUM_0", "DOSSIER_0", "MNTREG_0", "MNTGLB_0"],
   [[Value.str "D", Value.str "CAS", Value.int 5, Value.int 9]]⟩

/-- Initial-load CRM environment (`COUNT(*) = 0`), every query succeeds. -/
def envD : CentEnv := ⟨.ok 0, [], none, .ok (), .ok ()⟩

/-- Orchestration environment for the Centralizer-failure cycle: one
schema whose extraction succeeds with the non-empty `srcD`, a CRM in
delta mode whose active-invoice SELECT raises `ORA-00942`, and a
dispatching stage that succeeds. -/
def envSyncFail : SyncEnv :=
  ⟨1, [("CAS", fun _ => .ok srcD)],
   ⟨.ok 3, [], some "ORA-00942", .ok (), .ok ()⟩, 11, fun _ => .ok ()⟩

/-! ## Claims about the Centralizer delta classification -/

/-- **C1** (code_bug): the claim says that in delta mode, for a key
present both in the union and among the active CRM rows, an UPDATE
`MNTREG_0 := src.MNTREG_0` is staged iff `src.MNTREG_0 > crm.MNTREG_0`.
On the failing input — union row `(A, CAS, 70, 100)`, active CRM row
`(A, CAS, 30, 100)`, so `70 > 30` — the code stages no such UPDATE: the
source keyset consists of positional integers (the `set_index` result at
centralization.py:60 is discarded), so it never meets the tuple-keyed
CRM keyset; the code instead re-INSERTs the full row and stages the
settlement UPDATE `MNTREG_0 := 100` for the supposedly disappeared key. -/
theorem c1_partial_payment_trigger_broken :
    ((30 : Int) < 70
        ∧ get_active_crm_invoices envA.crmTable
            = [⟨Value.str "A", Value.str "CAS", 30, 100⟩])
      ∧ (70, 7, Value.str "A", Value.str "CAS")
          ∉ (process_centralization srcA envA 7).updates
      ∧ (process_centralization srcA envA 7).updates
          = [(100, 7, Value.str "A", Value.str "CAS")]
      ∧ (process_centralization srcA envA 7).inserts
          = [[Value.str "A", Value.str "CAS", Value.int 70, Value.int 100,
              Value.date 7]] := by
  decide

/-- **C2** (code_bug): the claim says that in delta mode a union row is
inserted iff its `(NUM_0, DOSSIER_0)` key is not among the active CRM
keys, so no duplicate key pair is ever produced.  On the failing input —
union row `(B, CMGP, 20, 50)` whose key is exactly the active CRM row's
key — the code nevertheless stages a full INSERT of the row (the
positional source keyset never meets the tuple CRM keyset, so every
union row counts as new), creating a second CRM row with the key
`(B, CMGP)`. -/
theorem c2_duplicate_key_insert_in_delta :
    PyKey.tup (Value.str "B") (Value.str "CMGP")
        ∈ (get_active_crm_invoices envB.crmTable).map
            (fun r => PyKey.tup r.num r.dossier)
      ∧ (process_centralization srcB envB 9).inserts
          = [[Value.str "B", Value.str "CMGP", Value.int 20, Value.int 50,
              Value.date 9]] := by
  decide

/-- **C3** (code_bug): the claim says that in delta mode the settlement
UPDATE `MNTREG_0 := MNTGLB_0` is staged exactly for the active CRM keys
absent from the union.  On the failing input — union row
`(C, PHILEA, 40, 80)`, active CRM row `(C, PHILEA, 10, 80)`, so the key
is present in the union — the code still stages the settlement UPDATE
`MNTREG_0 := 80` for it: the tuple-keyed CRM keyset never meets the
positional source keyset, so every active key counts as disappeared. -/
theorem c3_settlement_fires_for_present_key :
    rowVal srcC.cols "NUM_0"
        [Value.str "C", Value.str "PHILEA", Value.int 40, Value.int 80]
          = some (Value.str "C")
      ∧ rowVal srcC.cols "DOSSIER_0"
          [Value.str "C", Value.str "PHILEA", Value.int 40, Value.int 80]
            = some (Value.str "PHILEA")
      ∧ srcC.rows
          = [[Value.str "C", Value.str "PHILEA", Value.int 40, Value.int 80]]
      ∧ (process_centralization srcC envC 4).updates
          = [(80, 4, Value.str "C", Value.str "PHILEA")] := by
  decide

/-- **C5** (code_bug): the claim says that an exception inside
`process_centralization` is re-raised after the FAILURE publication, so
the orchestrator retries and, once the budget is exhausted, raises
`CENTRALISATION_FAIL`, sets status `ERROR` and skips dispatching.  On
the failing input — a cycle whose active-invoice SELECT raises — the
embedded code publishes the FAILURE record but returns normally: the
orchestrator makes a single attempt, records no alert, proceeds to
dispatching, and ends the cycle with status `IDLE`. -/
theorem c5_centralization_failure_swallowed :
    ((orchestrate_sync envSyncFail).cent.map (fun c => c.record.status))
        = some "FAILURE"
      ∧ (orchestrate_sync envSyncFail).centAttempts = 1
      ∧ (orchestrate_sync envSyncFail).alerts = []
      ∧ (orchestrate_sync envSyncFail).status = "IDLE"
      ∧ (orchestrate_sync envSyncFail).reachedDispatch = true := by
  decide

/-! ## Claim about the union frame (frame effect) -/

/-- **C9** (counterexample): the claim says no column is added to the
union after Centralizer entry; on the concrete non-empty union `srcD`
the returned frame carries the extra `SYNC_DATE` column. -/
theorem c9_union_gains_sync_date_column :
    (process_centralization srcD envD 3).sourceAfter.cols
        = srcD.cols ++ ["SYNC_DATE"]
      ∧ (process_centralization srcD envD 3).sourceAfter.cols ≠ srcD.cols := by
  decide

/-- **C9** (amended): after entry with a non-empty union that has no
`SYNC_DATE` column, `process_centralization` mutates the union exactly by
appending a `SYNC_DATE` column stamped `now` on every row: every
pre-existing column label and every pre-existing cell is unchanged, and
no other column is added. -/
theorem c9_union_mutated_only_by_sync_date_stamp
    (source : DataFrame) (env : CentEnv) (now : Nat)
    (hne : source.isEmpty = false) (hno : "SYNC_DATE" ∉ source.cols) :
    (process_centralization source env now).sourceAfter.cols
        = source.cols ++ ["SYNC_DATE"]
      ∧ (process_centralization source env now).sourceAfter.rows
          = source.rows.map (fun r => r ++ [Value.date now]) := by
  have hset : setCol source "SYNC_DATE" (Value.date now)
      = ⟨source.cols ++ ["SYNC_DATE"],
         source.rows.map (fun r => r ++ [Value.date now])⟩ := by
    simp [setCol, hno]
  unfold process_centralization
  rw [hset, hne]
  simp only [Bool.false_eq_true, if_false]
  cases h : centTry
      ⟨source.cols ++ ["SYNC_DATE"],
       source.rows.map (fun r => r ++ [Value.date now])⟩ env now with
  | error e => simp [h]
  | ok v =>
      obtain ⟨ins, upd, r⟩ := v
      simp [h]

/-- Witness for the amended C9 theorem at the concrete union `srcD`. -/
theorem c9_union_mutation_witness :
    (process_centralization srcD envD 3).sourceAfter.cols
        = srcD.cols ++ ["SYNC_DATE"] :=
  (c9_union_mutated_only_by_sync_date_stamp srcD envD 3 (by decide)
    (by decide)).1

/-! ## Claim about the Extractor (C7) -/

theorem map_rename_of_not_mem {l : List String} {o n : String} (h : o ∉ l) :
    l.map (fun c => if c == o then n else c) = l := by
  induction l with
  | nil => rfl
  | cons a t ih =>
      have h1 : a ≠ o := fun he => h (he ▸ List.mem_cons_self a t)
      have h2 : o ∉ t := fun he => h (List.mem_cons_of_mem a he)
      rw [List.map_cons, ih h2, if_neg (by simpa using h1)]

theorem keptVals_of_not_mem {cols : List String} {c : String} {r : List Value}
    (hm : c ∉ cols) (hlen : r.length = cols.length) :
    keptVals cols c r = r := by
  unfold keptVals
  have hall : ∀ p ∈ cols.zip r, (!(p.1 == c)) = true := by
    intro p hp
    obtain ⟨x, y⟩ := p
    have hmem : x ∈ cols := (List.of_mem_zip hp).1
    have hx : x ≠ c := fun he => hm (he ▸ hmem)
    simpa using hx
  rw [List.filter_eq_self.mpr hall]
  exact List.map_snd_zip cols r (le_of_eq hlen)

theorem keptVals_map_rename (cols : List String) (r : List Value) :
    keptVals (cols.map (fun c => if c == "BRP_0" then "BPR_0" else c))
        "DOSSIER_0" r
      = keptVals cols "DOSSIER_0" r := by
  induction cols generalizing r with
  | nil => rfl
  | cons a t ih =>
      cases r with
      | nil => rfl
      | cons v vs =>
          have ih2 := ih vs
          unfold keptVals at ih2 ⊢
          by_cases ha : a = "BRP_0"
          · subst ha; simpa using ih2
          · by_cases hd : a = "DOSSIER_0"
            · subst hd; simpa using ih2
            · simpa [ha, hd] using ih2

theorem keptVals_length {cols : List String} {c : String} {r : List Value}
    (h : r.length = cols.length) :
    (keptVals cols c r).length = (cols.filter (fun x => !(x == c))).length := by
  induction cols generalizing r with
  | nil =>
      cases r with
      | nil => rfl
      | cons v vs => simp at h
  | cons a t ih =>
      cases r with
      | nil => simp at h
      | cons v vs =>
          have h2 : vs.length = t.length := by simpa using h
          have ih2 := ih h2
          unfold keptVals at ih2 ⊢
          rw [List.zip_cons_cons, List.filter_cons, List.filter_cons]
          cases hb : (!(a == c)) with
          | false => rw [if_neg (by simp [hb]), if_neg (by simp [hb])]; exact ih2
          | true =>
              rw [if_pos (by simp [hb]), if_pos (by simp [hb]),
                List.map_cons, List.length_cons, List.length_cons, ih2]

theorem rowVal_append_last {cols : List String} {c : String} {r : List Value}
    {v : Value} (hlen : r.length = cols.length) (hm : c ∉ cols) :
    rowVal (cols ++ [c]) c (r ++ [v]) = some v := by
  unfold rowVal
  rw [List.zip_append hlen.symm, List.find?_append]
  have h1 : (cols.zip r).find? (fun p => p.1 == c) = none := by
    rw [List.find?_eq_none]
    intro p hp
    obtain ⟨x, y⟩ := p
    have hmem : x ∈ cols := (List.of_mem_zip hp).1
    have hx : x ≠ c := fun he => hm (he ▸ hmem)
    simpa using hx
  simp [h1]

/-- **C7** (confirmed): for every `(source, schema)` the Extractor's
output has the input column labels upper-cased, any `BRP_0` renamed to
`BPR_0` and any pre-existing `DOSSIER_0` removed, followed by exactly one
fresh `DOSSIER_0` column whose value is the schema name on every row;
cell content of the kept columns is otherwise unchanged, and a SUCCESS
record is published.  On driver failure it returns the empty frame with a
FAILURE record carrying the error message and does not raise (the
embedded function is total). -/
theorem normBrp_eq (cols : List String) (rows : List (List Value)) :
    normBrp ⟨cols, rows⟩
      = ⟨cols.map (fun c => if c == "BRP_0" then "BPR_0" else c), rows⟩ := by
  by_cases hb : "BRP_0" ∈ cols
  · simp only [normBrp]
    rw [if_pos hb]
    rfl
  · simp only [normBrp]
    rw [if_neg hb, map_rename_of_not_mem hb]

theorem dropDossier_eq (cols : List String) (rows : List (List Value))
    (hlen : ∀ r ∈ rows, r.length = cols.length) :
    dropDossier ⟨cols, rows⟩
      = ⟨cols.filter (fun c => !(c == "DOSSIER_0")),
         rows.map (keptVals cols "DOSSIER_0")⟩ := by
  by_cases hd : "DOSSIER_0" ∈ cols
  · simp only [dropDossier]
    rw [if_pos hd]
    rfl
  · simp only [dropDossier]
    rw [if_neg hd]
    have h1 : cols.filter (fun c => !(c == "DOSSIER_0")) = cols := by
      apply List.filter_eq_self.mpr
      intro x hx
      have hxd : x ≠ "DOSSIER_0" := fun he => hd (he ▸ hx)
      simpa using hxd
    have h2 : rows.map (keptVals cols "DOSSIER_0") = rows := by
      refine (List.map_congr_left ?_).trans (List.map_id rows)
      intro r hr
      exact keptVals_of_not_mem hd (hlen r hr)
    rw [h1, h2]

theorem setCol_append (cols : List String) (rows : List (List Value))
    (c : String) (v : Value) (h : c ∉ cols) :
    setCol ⟨cols, rows⟩ c v = ⟨cols ++ [c], rows.map (fun r => r ++ [v])⟩ := by
  simp only [setCol]
  rw [if_neg h]

/-- **C7** (confirmed): for every `(source, schema)` the Extractor's
output has the input column labels upper-cased, any `BRP_0` renamed to
`BPR_0` and any pre-existing `DOSSIER_0` removed, followed by exactly one
fresh `DOSSIER_0` column whose value is the schema name on every row;
cell content of the kept columns is otherwise unchanged, and a SUCCESS
record is published.  On driver failure it returns the empty frame with a
FAILURE record carrying the error message and does not raise (the
embedded function is total). -/
theorem c7_extractor_contract (schema : String)
    (driver : Except String DataFrame) :
    (∀ df0, driver = Except.ok df0 →
      (∀ r ∈ df0.rows, r.length = df0.cols.length) →
      (extract_schema_data schema driver).1.cols
          = ((df0.cols.map String.toUpper).map
              (fun c => if c == "BRP_0" then "BPR_0" else c)).filter
                (fun c => !(c == "DOSSIER_0")) ++ ["DOSSIER_0"]
        ∧ (extract_schema_data schema driver).1.rows
            = df0.rows.map
                (fun r => keptVals (df0.cols.map String.toUpper) "DOSSIER_0" r
                    ++ [Value.str schema])
        ∧ "BRP_0" ∉ (extract_schema_data schema driver).1.cols
        ∧ ((extract_schema_data schema driver).1.cols.count "DOSSIER_0" = 1)
        ∧ (∀ r ∈ (extract_schema_data schema driver).1.rows,
            rowVal (extract_schema_data schema driver).1.cols "DOSSIER_0" r
              = some (Value.str schema))
        ∧ (extract_schema_data schema driver).2
            = ⟨"extraction", schema, "SUCCESS", "Extraction completee."⟩)
    ∧ (∀ e, driver = Except.error e →
        extract_schema_data schema driver
          = (DataFrame.emptyDF, ⟨"extraction", schema, "FAILURE", e⟩)) := by
  constructor
  · intro df0 hdrv hwf
    subst hdrv
    have hlenr2 : ∀ r ∈ df0.rows,
        r.length = ((df0.cols.map String.toUpper).map
          (fun c => if c == "BRP_0" then "BPR_0" else c)).length := by
      intro r hr
      rw [List.length_map, List.length_map]
      exact hwf r hr
    have hnodos : "DOSSIER_0" ∉ ((df0.cols.map String.toUpper).map
          (fun c => if c == "BRP_0" then "BPR_0" else c)).filter
            (fun c => !(c == "DOSSIER_0")) := by
      intro hmem
      have := (List.mem_filter.mp hmem).2
      simp at this
    have key : extract_schema_data schema (Except.ok df0)
        = (⟨((df0.cols.map String.toUpper).map
              (fun c => if c == "BRP_0" then "BPR_0" else c)).filter
                (fun c => !(c == "DOSSIER_0")) ++ ["DOSSIER_0"],
            df0.rows.map (fun r =>
              keptVals ((df0.cols.map String.toUpper).map
                (fun c => if c == "BRP_0" then "BPR_0" else c)) "DOSSIER_0" r
                ++ [Value.str schema])⟩,
           ⟨"extraction", schema, "SUCCESS", "Extraction completee."⟩) := by
      show (setCol (dropDossier (normBrp (upperCols df0))) "DOSSIER_0"
              (Value.str schema),
            (⟨"extraction", schema, "SUCCESS", "Extraction completee."⟩
              : StepRecord)) = _
      rw [show upperCols df0
            = DataFrame.mk (df0.cols.map String.toUpper) df0.rows from rfl,
        normBrp_eq, dropDossier_eq _ _ hlenr2, setCol_append _ _ _ _ hnodos,
        List.map_map, List.map_map]
      rfl
    refine ⟨?_, ?_, ?_, ?_, ?_, ?_⟩
    · rw [key]
    · rw [key]
      show df0.rows.map _ = df0.rows.map _
      apply List.map_congr_left
      intro r _
      rw [keptVals_map_rename]
    · rw [key]
      intro hmem
      rcases List.mem_append.mp hmem with h | h
      · rcases List.mem_map.mp (List.mem_filter.mp h).1 with ⟨c, _, hc⟩
        by_cases hcb : c = "BRP_0"
        · subst hcb; simp at hc
        · rw [if_neg (by simpa using hcb)] at hc
          exact hcb hc
      · simp at h
    · rw [key]
      show (List.count _ _) = 1
      rw [List.count_append, List.count_eq_zero.mpr hnodos,
        List.count_singleton_self]
    · rw [key]
      intro r hr
      rcases List.mem_map.mp hr with ⟨r0, hr0, hreq⟩
      subst hreq
      have hlen : (keptVals ((df0.cols.map String.toUpper).map
            (fun c => if c == "BRP_0" then "BPR_0" else c)) "DOSSIER_0"
              r0).length
          = (((df0.cols.map String.toUpper).map
              (fun c => if c == "BRP_0" then "BPR_0" else c)).filter
                (fun c => !(c == "DOSSIER_0"))).length :=
        keptVals_length (hlenr2 r0 hr0)
      exact rowVal_append_last hlen hnodos
    · rw [key]
  · intro e hdrv
    subst hdrv
    rfl

/-- Witness for C7 at a concrete three-column frame containing a `BRP_0`
typo and a stale `DOSSIER_0` column. -/
theorem c7_extractor_witness :
    (extract_schema_data "CAS"
        (Except.ok ⟨["num_0", "BRP_0", "DOSSIER_0"],
          [[Value.int 1, Value.str "p", Value.str "old"]]⟩)).1.cols
      = (((["num_0", "BRP_0", "DOSSIER_0"] : List String).map
            String.toUpper).map
          (fun c => if c == "BRP_0" then "BPR_0" else c)).filter
            (fun c => !(c == "DOSSIER_0")) ++ ["DOSSIER_0"] :=
  ((c7_extractor_contract "CAS"
      (Except.ok ⟨["num_0", "BRP_0", "DOSSIER_0"],
        [[Value.int 1, Value.str "p", Value.str "old"]]⟩)).1
    ⟨["num_0", "BRP_0", "DOSSIER_0"],
      [[Value.int 1, Value.str "p", Value.str "old"]]⟩ rfl (by decide)).1

/-! ## Claim about the extraction retry wrapper (C6) -/

/-- Whether an Extractor call returned (rather than raised). -/
def exOk : Except ε α → Bool
  | .ok _ => true
  | .error _ => false

/-- The `IN_PROGRESS`/`FAILURE` publication pairs of `n` consecutive
failing attempts, the first one at retry counter `start`. -/
def failPubs : Nat → Nat → List (String × Nat)
  | _, 0 => []
  | start, n + 1 =>
      [("IN_PROGRESS", start), ("FAILURE", start + 1)] ++ failPubs (start + 1) n

theorem retryGo_all_fail (att : Nat → Except String DataFrame) (maxR : Nat) :
    ∀ n retries pubs sleeps attempts,
      retries + n = maxR + 1 →
      (∀ k, k < n → exOk (att (retries + k)) = false) →
      retryGo att maxR retries n pubs sleeps attempts
        = retryEpilogue (pubs ++ failPubs retries n) (sleeps + (n - 1))
            (attempts + n) := by
  intro n
  induction n with
  | zero =>
      intro retries pubs sleeps attempts hinv hfail
      simp [retryGo, failPubs]
  | succ m ih =>
      intro retries pubs sleeps attempts hinv hfail
      have h0 : exOk (att retries) = false := by
        simpa using hfail 0 (Nat.succ_pos m)
      cases hatt : att retries with
      | ok df => rw [hatt] at h0; simp [exOk] at h0
      | error e =>
          have step : retryGo att maxR retries (m + 1) pubs sleeps attempts
              = retryGo att maxR (retries + 1) m
                  ((pubs ++ [("IN_PROGRESS", retries)])
                    ++ [("FAILURE", retries + 1)])
                  (if retries + 1 ≤ maxR then sleeps + 1 else sleeps)
                  (attempts + 1) := by
            simp only [retryGo, hatt]
          have hfail2 : ∀ k, k < m → exOk (att (retries + 1 + k)) = false := by
            intro k hk
            have := hfail (k + 1) (by omega)
            simpa [show retries + (k + 1) = retries + 1 + k from by omega]
              using this
          rw [step, ih (retries + 1) _ _ _ (by omega) hfail2]
          congr 1
          · simp [failPubs, List.append_assoc]
          · by_cases hle : retries + 1 ≤ maxR
            · rw [if_pos hle]; omega
            · rw [if_neg hle]; omega
          · omega

theorem retryGo_first_ok (att : Nat → Except String DataFrame) (maxR : Nat) :
    ∀ j retries fuel pubs sleeps attempts df,
      retries + fuel = maxR + 1 →
      j < fuel →
      (∀ k, k < j → exOk (att (retries + k)) = false) →
      att (retries + j) = Except.ok df →
      retryGo att maxR retries fuel pubs sleeps attempts
        = ⟨pubs ++ failPubs retries j ++ [("IN_PROGRESS", retries + j)],
           sleeps + j, [], attempts + j + 1, (df, true)⟩ := by
  intro j
  induction j with
  | zero =>
      intro retries fuel pubs sleeps attempts df hinv hlt hfail hok
      cases fuel with
      | zero => omega
      | succ f =>
          have hok2 : att retries = Except.ok df := by simpa using hok
          simp [retryGo, hok2, dfIsNotNone, failPubs]
  | succ m ih =>
      intro retries fuel pubs sleeps attempts df hinv hlt hfail hok
      cases fuel with
      | zero => omega
      | succ f =>
          have h0 : exOk (att retries) = false := by
            simpa using hfail 0 (Nat.succ_pos m)
          cases hatt : att retries with
          | ok d2 => rw [hatt] at h0; simp [exOk] at h0
          | error e =>
              have step : retryGo att maxR retries (f + 1) pubs sleeps attempts
                  = retryGo att maxR (retries + 1) f
                      ((pubs ++ [("IN_PROGRESS", retries)])
                        ++ [("FAILURE", retries + 1)])
                      (if retries + 1 ≤ maxR then sleeps + 1 else sleeps)
                      (attempts + 1) := by
                simp only [retryGo, hatt]
              have hfail2 : ∀ k, k < m → exOk (att (retries + 1 + k)) = false := by
                intro k hk
                have := hfail (k + 1) (by omega)
                simpa [show retries + (k + 1) = retries + 1 + k from by omega]
                  using this
              have hok2 : att (retries + 1 + m) = Except.ok df := by
                simpa [show retries + (m + 1) = retries + 1 + m from by omega]
                  using hok
              have hsleep : (if retries + 1 ≤ maxR then sleeps + 1 else sleeps)
                  = sleeps + 1 := by
                rw [if_pos (by omega)]
              rw [step, hsleep,
                ih (retries + 1) f _ _ _ df (by omega) (by omega) hfail2 hok2]
              have hidx : retries + 1 + m = retries + (m + 1) := by omega
              congr 1
              · rw [hidx]; simp [failPubs, List.append_assoc]
              · omega
              · omega

/-- **C6** (confirmed): the extraction retry wrapper fails an attempt
exactly when the Extractor call raises.  If every attempt up to
`MAX_RETRIES` raises, it makes `MAX_RETRIES + 1` attempts (one initial
plus `MAX_RETRIES` retries), sleeps `MAX_RETRIES` times between attempts,
publishes the running retry count with each `IN_PROGRESS`/`FAILURE`
record, raises `EXTRACTION_FAIL`, and returns `(empty, False)`.  If the
first `j` attempts raise and attempt `j ≤ MAX_RETRIES` returns cleanly,
it stops at attempt `j + 1` with `(df, True)` after `j` sleeps — in
particular a cleanly empty first result is returned as a success with a
single attempt and no retry. -/
theorem c6_retry_wrapper_contract (maxR : Nat)
    (att : Nat → Except String DataFrame) :
    ((∀ k, k ≤ maxR → exOk (att k) = false) →
      run_extraction_with_retries att maxR
        = ⟨failPubs 0 (maxR + 1), maxR,
           [("EXTRACTION_FAIL", "Echec de l'extraction.")], maxR + 1,
           (DataFrame.emptyDF, false)⟩)
    ∧ (∀ j df, j ≤ maxR → (∀ k, k < j → exOk (att k) = false) →
        att j = Except.ok df →
        run_extraction_with_retries att maxR
          = ⟨failPubs 0 j ++ [("IN_PROGRESS", j)], j, [], j + 1, (df, true)⟩)
    ∧ (∀ df, att 0 = Except.ok df → df.isEmpty = true →
        run_extraction_with_retries att maxR
          = ⟨[("IN_PROGRESS", 0)], 0, [], 1, (df, true)⟩) := by
  refine ⟨?_, ?_, ?_⟩
  · intro hfail
    have h := retryGo_all_fail att maxR (maxR + 1) 0 [] 0 0 (by omega)
      (by intro k hk; simpa using hfail k (by omega))
    simpa [run_extraction_with_retries, retryEpilogue] using h
  · intro j df hj hfail hok
    have h := retryGo_first_ok att maxR j 0 (maxR + 1) [] 0 0 df (by omega)
      (by omega) (by intro k hk; simpa using hfail k hk) (by simpa using hok)
    simpa [run_extraction_with_retries] using h
  · intro df hok hempty
    have h := retryGo_first_ok att maxR 0 0 (maxR + 1) [] 0 0 df (by omega)
      (by omega) (by intro k hk; omega) (by simpa using hok)
    simpa [run_extraction_with_retries, failPubs] using h

/-- Two failing attempts then a clean one, for the C6 witness. -/
def attW : Nat → Except String DataFrame :=
  fun k => if k = 0 then Except.error "ORA-12170" else Except.ok DataFrame.emptyDF

/-- Witness for C6: with `MAX_RETRIES = 2` and an Extractor raising on
the first call and returning cleanly on the second, the wrapper retries
once, sleeps once, and succeeds at attempt 2. -/
theorem c6_retry_wrapper_witness :
    run_extraction_with_retries attW 2
      = ⟨failPubs 0 1 ++ [("IN_PROGRESS", 1)], 1, [], 2,
         (DataFrame.emptyDF, true)⟩ :=
  (c6_retry_wrapper_contract 2 attW).2.1 1 DataFrame.emptyDF (by decide)
    (fun k hk => by
      have hk0 : k = 0 := by omega
      subst hk0
      rfl)
    rfl

/-! ## Claims about the global Dispatcher (C4, C8) -/

/-- Membership of a target in the initial-load set (`COUNT(*) = 0`). -/
def isInitialTarget (t : TargetEnv) : Bool :=
  match t.countQ with
  | .ok 0 => true
  | _ => false

/-- The FAILURE record published when a target's state check raises. -/
def failRecordOf (t : TargetEnv) : Option StepRecord :=
  match t.countQ with
  | .error e =>
      some ⟨"dispatching", t.schema, "FAILURE", "Erreur acces schema: " ++ e⟩
  | .ok 0 => none
  | .ok (_ + 1) =>
      match t.maxDateQ with
      | .error e =>
          some ⟨"dispatching", t.schema, "FAILURE", "Erreur acces schema: " ++ e⟩
      | .ok _ => none

/-- Schemas of the initial-load set computed by the state-check phase. -/
def initialsOf (targets : List TargetEnv) : List String :=
  (targets.filter isInitialTarget).map (fun t => t.schema)

/-- Schemas of the delta set computed by the state-check phase. -/
def deltasOf (targets : List TargetEnv) : List String :=
  (targets.filter isDeltaTarget).map (fun t => t.schema)

/-- The collected `MAX(SYNC_DATE)` watermarks of the delta set. -/
def datesOf (targets : List TargetEnv) : List Nat :=
  targets.filterMap targetMaxDate

/-- The FAILURE records of the state-check phase. -/
def failsOf (targets : List TargetEnv) : List StepRecord :=
  targets.filterMap failRecordOf

/-- Whether the CRM delta query runs for this cycle. -/
def fetchesOf (targets : List TargetEnv) : Bool :=
  !(deltasOf targets).isEmpty && !(datesOf targets).isEmpty

/-- The delta frame fetched for this cycle. -/
def deltaDfOf (targets : List TargetEnv) (crm : List CrmWideRow) :
    List CrmWideRow :=
  if fetchesOf targets then
    crm.filter (fun r => listMin (datesOf targets) < r.syncDate)
  else []

theorem checkFold_eq (ts : List TargetEnv) :
    ∀ acc : CheckAcc,
      ts.foldl checkStep acc
        = ⟨acc.initials ++ initialsOf ts, acc.deltas ++ deltasOf ts,
           acc.maxDates ++ datesOf ts, acc.failures ++ failsOf ts⟩ := by
  induction ts with
  | nil =>
      intro acc
      simp [initialsOf, deltasOf, datesOf, failsOf]
  | cons t ts ih =>
      intro acc
      rw [List.foldl_cons, ih]
      rcases t with ⟨schema, countQ, maxDateQ⟩
      cases countQ with
      | error e =>
          simp [checkStep, initialsOf, deltasOf, datesOf, failsOf,
            isInitialTarget, isDeltaTarget, targetMaxDate, failRecordOf,
            List.filter_cons, List.filterMap_cons, List.append_assoc]
      | ok n =>
          cases n with
          | zero =>
              simp [checkStep, initialsOf, deltasOf, datesOf, failsOf,
                isInitialTarget, isDeltaTarget, targetMaxDate, failRecordOf,
                List.filter_cons, List.filterMap_cons, List.append_assoc]
          | succ m =>
              cases maxDateQ with
              | error e =>
                  simp [checkStep, initialsOf, deltasOf, datesOf, failsOf,
                    isInitialTarget, isDeltaTarget, targetMaxDate, failRecordOf,
                    List.filter_cons, List.filterMap_cons, List.append_assoc]
              | ok od =>
                  cases od with
                  | none =>
                      simp [checkStep, initialsOf, deltasOf, datesOf, failsOf,
                        isInitialTarget, isDeltaTarget, targetMaxDate,
                        failRecordOf, List.filter_cons, List.filterMap_cons,
                        List.append_assoc]
                  | some d =>
                      simp [checkStep, initialsOf, deltasOf, datesOf, failsOf,
                        isInitialTarget, isDeltaTarget, targetMaxDate,
                        failRecordOf, List.filter_cons, List.filterMap_cons,
                        List.append_assoc]

theorem checkPhase_eq (targets : List TargetEnv) :
    targets.foldl checkStep ⟨[], [], [], []⟩
      = ⟨initialsOf targets, deltasOf targets, datesOf targets,
         failsOf targets⟩ := by
  simpa using checkFold_eq targets ⟨[], [], [], []⟩

theorem run_dispatching_eq (targets : List TargetEnv) (crm : List CrmWideRow) :
    run_dispatching targets crm
      = ⟨initialsOf targets, deltasOf targets, datesOf targets,
         failsOf targets, [], (if fetchesOf targets then 1 else 0),
         deltaDfOf targets crm,
         (initialsOf targets).map DispatchCall.initial
           ++ (deltasOf targets).map
                (fun s => DispatchCall.delta s (deltaDfOf targets crm))⟩ := by
  simp only [run_dispatching]
  rw [checkPhase_eq]
  rfl

theorem foldl_min_le_init (t : List Nat) : ∀ a, t.foldl min a ≤ a := by
  induction t with
  | nil => intro a; exact le_refl a
  | cons b t ih =>
      intro a
      exact le_trans (ih (min a b)) (min_le_left a b)

theorem foldl_min_le_mem (t : List Nat) :
    ∀ a d, d ∈ t → t.foldl min a ≤ d := by
  induction t with
  | nil => intro a d hd; cases hd
  | cons b t ih =>
      intro a d hd
      rcases List.mem_cons.mp hd with h | h
      · subst h
        exact le_trans (foldl_min_le_init t (min a d)) (min_le_right a d)
      · exact ih (min a b) d h

theorem foldl_min_mem (t : List Nat) :
    ∀ a, t.foldl min a = a ∨ t.foldl min a ∈ t := by
  induction t with
  | nil => intro a; exact Or.inl rfl
  | cons b t ih =>
      intro a
      rcases ih (min a b) with h | h
      · by_cases hab : a ≤ b
        · left
          rw [List.foldl_cons, h]
          omega
        · right
          rw [List.foldl_cons, h]
          have hmb : min a b = b := by omega
          rw [hmb]
          exact List.mem_cons_self b t
      · right
        rw [List.foldl_cons]
        exact List.mem_cons_of_mem b h

/-- Python `min(l)` of a non-empty list is a member of the list. -/
theorem listMin_mem {l : List Nat} (h : l ≠ []) : listMin l ∈ l := by
  cases l with
  | nil => exact absurd rfl h
  | cons a t =>
      rcases foldl_min_mem t a with h1 | h1
      · rw [listMin, h1]; exact List.mem_cons_self a t
      · rw [listMin]; exact List.mem_cons_of_mem a h1

/-- Python `min(l)` of a non-empty list bounds every member from below. -/
theorem listMin_le {l : List Nat} (d : Nat) (hd : d ∈ l) : listMin l ≤ d := by
  cases l with
  | nil => cases hd
  | cons a t =>
      rcases List.mem_cons.mp hd with h | h
      · subst h; exact foldl_min_le_init t d
      · exact foldl_min_le_mem t a d h

theorem checkFails_not_initial {t : TargetEnv} (h : checkFails t = true) :
    isInitialTarget t = false := by
  rcases t with ⟨s, cq, mq⟩
  cases cq with
  | error e => rfl
  | ok n =>
      cases n with
      | zero => simp [checkFails] at h
      | succ m => rfl

theorem checkFails_not_delta {t : TargetEnv} (h : checkFails t = true) :
    targetMaxDate t = none := by
  rcases t with ⟨s, cq, mq⟩
  cases cq with
  | error e => rfl
  | ok n =>
      cases n with
      | zero => simp [checkFails] at h
      | succ m =>
          cases mq with
          | error e => rfl
          | ok od => simp [checkFails] at h

theorem checkFails_failRecord {t : TargetEnv} (h : checkFails t = true) :
    ∃ e, failRecordOf t
      = some ⟨"dispatching", t.schema, "FAILURE",
          "Erreur acces schema: " ++ e⟩ := by
  rcases t with ⟨s, cq, mq⟩
  cases cq with
  | error e => exact ⟨e, rfl⟩
  | ok n =>
      cases n with
      | zero => simp [checkFails] at h
      | succ m =>
          cases mq with
          | error e => exact ⟨e, rfl⟩
          | ok od => simp [checkFails] at h

/-- **C4** (confirmed): whenever the delta set computed by the
state-check phase is non-empty (some target has a nonzero `COUNT(*)`,
successful checks and a non-null `MAX(SYNC_DATE)`), `run_dispatching`
executes the CRM delta SELECT exactly once, fetching exactly the CRM rows
whose `SYNC_DATE` is strictly greater than `W = min` of the delta-set
watermarks (`listMin` is a genuine minimum: a member of and a lower bound
on the collected `MAX(SYNC_DATE)` values), and passes that one fetched
frame to the `dispatch_delta` task of every delta target — any delta
frame handed to a dispatch task is that frame. -/
theorem c4_watermark_single_fetch (targets : List TargetEnv)
    (crm : List CrmWideRow) (t0 : TargetEnv) (h0 : t0 ∈ targets)
    (hd0 : isDeltaTarget t0 = true) :
    (run_dispatching targets crm).fetchCount = 1
      ∧ (run_dispatching targets crm).deltaDf
          = crm.filter (fun r => listMin (datesOf targets) < r.syncDate)
      ∧ (run_dispatching targets crm).maxDates = datesOf targets
      ∧ (run_dispatching targets crm).deltas = deltasOf targets
      ∧ listMin (datesOf targets) ∈ datesOf targets
      ∧ (∀ d ∈ datesOf targets, listMin (datesOf targets) ≤ d)
      ∧ (∀ s ∈ (run_dispatching targets crm).deltas,
          DispatchCall.delta s ((run_dispatching targets crm).deltaDf)
            ∈ (run_dispatching targets crm).calls)
      ∧ (∀ s df2,
          DispatchCall.delta s df2 ∈ (run_dispatching targets crm).calls →
          df2 = (run_dispatching targets crm).deltaDf) := by
  have hne1 : deltasOf targets ≠ [] := by
    intro hnil
    have hmem : t0 ∈ targets.filter isDeltaTarget :=
      List.mem_filter.mpr ⟨h0, hd0⟩
    have : t0.schema ∈ deltasOf targets :=
      List.mem_map.mpr ⟨t0, hmem, rfl⟩
    rw [hnil] at this
    cases this
  have hne2 : datesOf targets ≠ [] := by
    obtain ⟨d, hdd⟩ : ∃ d, targetMaxDate t0 = some d :=
      Option.isSome_iff_exists.mp hd0
    intro hnil
    have : d ∈ datesOf targets := List.mem_filterMap.mpr ⟨t0, h0, hdd⟩
    rw [hnil] at this
    cases this
  have hfetch : fetchesOf targets = true := by
    unfold fetchesOf
    rw [Bool.and_eq_true]
    constructor
    · cases hc : (deltasOf targets).isEmpty
      · rfl
      · exact absurd (List.isEmpty_iff.mp hc) hne1
    · cases hc : (datesOf targets).isEmpty
      · rfl
      · exact absurd (List.isEmpty_iff.mp hc) hne2
  simp only [run_dispatching_eq]
  refine ⟨by simp [hfetch], by simp [deltaDfOf, hfetch], by trivial,
    by trivial, listMin_mem hne2, fun d hd => listMin_le d hd, ?_, ?_⟩
  · intro s hs
    exact List.mem_append_right _ (List.mem_map.mpr ⟨s, hs, rfl⟩)
  · intro s df2 hmem
    rcases List.mem_append.mp hmem with h | h
    · rcases List.mem_map.mp h with ⟨x, _, heq⟩
      cases heq
    · rcases List.mem_map.mp h with ⟨s2, _, heq⟩
      cases heq
      rfl

/-- A non-empty delta target used by the C4 witness. -/
def tW4 : TargetEnv := ⟨"CAS", .ok 2, .ok (some 5)⟩

/-- A two-row CRM table used by the C4 witness. -/
def crmW4 : List CrmWideRow := [⟨3, []⟩, ⟨7, [Value.int 1]⟩]

/-- Witness for C4 at one delta target with watermark 5 over a CRM
holding rows stamped 3 and 7. -/
theorem c4_watermark_witness :
    (run_dispatching [tW4] crmW4).fetchCount = 1
      ∧ (run_dispatching [tW4] crmW4).deltaDf
          = crmW4.filter (fun r => listMin (datesOf [tW4]) < r.syncDate) :=
  ⟨(c4_watermark_single_fetch [tW4] crmW4 tW4 (List.mem_cons_self tW4 [])
      rfl).1,
   (c4_watermark_single_fetch [tW4] crmW4 tW4 (List.mem_cons_self tW4 [])
      rfl).2.1⟩

/-- A target whose `COUNT(*)` state check raises, for C8. -/
def tFailW : TargetEnv := ⟨"CAS", .error "ORA-12541", .ok none⟩

/-- **C8** (counterexample): the claim requires an alert in the alerts
list for a target whose state check fails; on the concrete failing target
`tFailW` the code excludes the target and publishes the FAILURE record,
but records no alert at all — `run_dispatching` never calls `add_alert`. -/
theorem c8_no_alert_on_check_failure :
    checkFails tFailW = true
      ∧ (∃ r ∈ (run_dispatching [tFailW] []).failures,
          r.step = "CAS" ∧ r.status = "FAILURE")
      ∧ (run_dispatching [tFailW] []).initials = []
      ∧ (run_dispatching [tFailW] []).deltas = []
      ∧ (run_dispatching [tFailW] []).alerts = []
      ∧ ¬ (∃ a ∈ (run_dispatching [tFailW] []).alerts, a.1 = a.1) := by
  decide

/-- **C8** (amended): in `run_dispatching`, a target whose state check
fails (its `COUNT(*)` query raises, or it is non-empty and its
`MAX(SYNC_DATE)` query raises) is excluded from both the initial-load set
and the delta set of the cycle, and a FAILURE step record is published
for it — but no alert is recorded: the alerts list of the dispatcher is
always empty. -/
theorem c8_failed_check_drops_target (targets : List TargetEnv)
    (crm : List CrmWideRow) (t : TargetEnv) (ht : t ∈ targets)
    (hf : checkFails t = true)
    (hnd : (targets.map (fun x => x.schema)).Nodup) :
    t.schema ∉ (run_dispatching targets crm).initials
      ∧ t.schema ∉ (run_dispatching targets crm).deltas
      ∧ (∃ r ∈ (run_dispatching targets crm).failures,
          r.stage = "dispatching" ∧ r.step = t.schema ∧ r.status = "FAILURE")
      ∧ (run_dispatching targets crm).alerts = [] := by
  simp only [run_dispatching_eq]
  refine ⟨?_, ?_, ?_, by trivial⟩
  · intro hmem
    rcases List.mem_map.mp hmem with ⟨t2, ht2, hsch⟩
    rcases List.mem_filter.mp ht2 with ⟨ht2m, ht2i⟩
    have ht2t : t2 = t := List.inj_on_of_nodup_map hnd ht2m ht hsch
    rw [ht2t] at ht2i
    rw [checkFails_not_initial hf] at ht2i
    cases ht2i
  · intro hmem
    rcases List.mem_map.mp hmem with ⟨t2, ht2, hsch⟩
    rcases List.mem_filter.mp ht2 with ⟨ht2m, ht2i⟩
    have ht2t : t2 = t := List.inj_on_of_nodup_map hnd ht2m ht hsch
    rw [ht2t] at ht2i
    unfold isDeltaTarget at ht2i
    rw [checkFails_not_delta hf] at ht2i
    cases ht2i
  · obtain ⟨e, he⟩ := checkFails_failRecord hf
    exact ⟨⟨"dispatching", t.schema, "FAILURE", "Erreur acces schema: " ++ e⟩,
      List.mem_filterMap.mpr ⟨t, ht, he⟩, rfl, rfl, rfl⟩

/-- Witness for the amended C8 at a two-target environment where the
first target's count query raises. -/
theorem c8_failed_check_witness :
    "CAS" ∉ (run_dispatching [tFailW, ⟨"CMGP", .ok 0, .ok none⟩] []).initials
      ∧ (run_dispatching [tFailW, ⟨"CMGP", .ok 0, .ok none⟩] []).alerts
          = [] :=
  ⟨(c8_failed_check_drops_target [tFailW, ⟨"CMGP", .ok 0, .ok none⟩] []
      tFailW (List.mem_cons_self tFailW _) rfl (by decide)).1,
   (c8_failed_check_drops_target [tFailW, ⟨"CMGP", .ok 0, .ok none⟩] []
      tFailW (List.mem_cons_self tFailW _) rfl (by decide)).2.2.2⟩

/-! ## Claim about the orchestrator with empty extractions (C10) -/

theorem run_extraction_first_ok (att : Nat → Except String DataFrame)
    (maxR : Nat) (df : DataFrame) (hok : att 0 = Except.ok df) :
    run_extraction_with_retries att maxR
      = ⟨[("IN_PROGRESS", 0)], 0, [], 1, (df, true)⟩ := by
  have h := retryGo_first_ok att maxR 0 0 (maxR + 1) [] 0 0 df (by omega)
    (by omega) (fun k hk => absurd hk (by omega)) (by simpa using hok)
  simpa [run_extraction_with_retries, failPubs] using h

theorem foldl_alerts_nil {l : List RetryTrace}
    (h : ∀ t ∈ l, t.alerts = []) :
    ∀ acc, l.foldl (fun acc t => acc ++ t.alerts) acc = acc := by
  induction l with
  | nil => intro acc; rfl
  | cons t ts ih =>
      intro acc
      rw [List.foldl_cons, h t (List.mem_cons_self t ts), List.append_nil]
      exact ih (fun x hx => h x (List.mem_cons_of_mem t hx)) acc

/-- **C10** (confirmed): in a cycle where every Extractor call returns
cleanly on its first attempt but with zero rows, the orchestrator counts
zero extraction successes (a success requires a non-empty frame), raises
the `CRITICAL_FAIL` alert, sets the global status to `ERROR`, and ends
the cycle before centralization — although no extraction attempt
raised. -/
theorem c10_all_empty_extractions_abort (env : SyncEnv)
    (h : ∀ p ∈ env.exts, ∃ df, p.2 0 = Except.ok df ∧ df.isEmpty = true) :
    (orchestrate_sync env).successCount = 0
      ∧ ("CRITICAL_FAIL", "Toutes les extractions ont echoue. Annulation du cycle.")
          ∈ (orchestrate_sync env).alerts
      ∧ (orchestrate_sync env).status = "ERROR"
      ∧ (orchestrate_sync env).cent = none
      ∧ (orchestrate_sync env).reachedDispatch = false := by
  have hres : (env.exts.map
        (fun p => run_extraction_with_retries p.2 env.maxR)).filterMap
        (fun t => if t.result.2 && !t.result.1.isEmpty
          then some t.result.1 else none) = [] := by
    rw [List.filterMap_map, List.filterMap_eq_nil_iff]
    intro p hp
    obtain ⟨df, hok, hemp⟩ := h p hp
    rw [Function.comp_apply, run_extraction_first_ok p.2 env.maxR df hok]
    simp [hemp]
  have halerts : (env.exts.map
        (fun p => run_extraction_with_retries p.2 env.maxR)).foldl
        (fun acc t => acc ++ t.alerts) [] = [] := by
    apply foldl_alerts_nil
    intro t ht
    rcases List.mem_map.mp ht with ⟨p, hp, hpt⟩
    obtain ⟨df, hok, _⟩ := h p hp
    rw [← hpt, run_extraction_first_ok p.2 env.maxR df hok]
  have key : orchestrate_sync env
      = ⟨[("CRITICAL_FAIL",
            "Toutes les extractions ont echoue. Annulation du cycle.")],
         "ERROR", 0, none, 0, false⟩ := by
    simp only [orchestrate_sync]
    rw [hres, halerts]
    rfl
  rw [key]
  exact ⟨rfl, List.mem_cons_self _ _, rfl, rfl, rfl⟩

/-- One target whose extraction always returns an empty frame, for the
C10 witness. -/
def envW10 : SyncEnv :=
  ⟨1, [("CAS", fun _ => Except.ok DataFrame.emptyDF)], envD, 0,
   fun _ => Except.ok ()⟩

/-- Witness for C10: a single source extracting zero rows cleanly ends
the cycle with status `ERROR` and zero counted successes. -/
theorem c10_all_empty_witness :
    (orchestrate_sync envW10).successCount = 0
      ∧ (orchestrate_sync envW10).status = "ERROR" := by
  have h := c10_all_empty_extractions_abort envW10
    (by
      intro p hp
      have hp1 : p = ("CAS", fun _ => Except.ok DataFrame.emptyDF) :=
        List.mem_singleton.mp hp
      subst hp1
      exact ⟨DataFrame.emptyDF, rfl, rfl⟩)
  exact ⟨h.1, h.2.2.1⟩

end Integration
